import Mathlib

/-!
# Correlated structured logging core: a verification development

A shallow embedding of `pkg/logger/utils.go` and `pkg/logger/logger.go`.

* Go strings are Lean `String`s; every operation of the embedding works on the
  underlying character list.  The only separator the code ever searches for is
  the ASCII colon, which never occurs inside a multi-byte UTF-8 sequence, so
  splitting characters and splitting bytes agree.
* A Go `error` is `Option ErrorValue`: `none` is the nil interface value and
  `some e` a non-nil one.  An `ErrorValue` records what the code can observe of
  the value: what its `Error()` method does, and what `fmt` prints for it under
  the verb `%v`.
* A run-time panic is the `Except.error` case of the result.
* Shared mutable state (the request counter) is passed explicitly; the clock
  reading of each call is an input.
-/

namespace Logger

/-! ## Go standard library pieces used by the code -/

deriving instance DecidableEq for Except

/-- Run-time faults that end a Go function by panicking. -/
inductive Panic where
  | nilDereference
  | value (v : String)
  deriving DecidableEq, Repr

/-- The text of a panic value, as `fmt` prints it. -/
def Panic.text : Panic → String
  | .nilDereference => "runtime error: invalid memory address or nil pointer dereference"
  | .value v => v

/-- A non-nil Go `error` value, by what can be observed of it.
`Error` is the outcome of calling its `Error()` method: the text returned, or
the panic raised (a nil pointer whose method reads through the receiver, for
one).  `Format` is the text its `Format` method writes under `%v` when the value
implements `fmt.Formatter`, and `none` when it does not.  `nilPointer` tells
whether the dynamic value is a nil pointer. -/
structure ErrorValue where
  Error : Except Panic String
  Format : Option String
  nilPointer : Bool
  deriving DecidableEq, Repr

/-- Go `errors.New(text)`: `Error()` returns the text and there is no `Format`
method. -/
def errorsNew (text : String) : ErrorValue := ⟨.ok text, none, false⟩

/-- The text `fmt` prints for a non-nil error under the verb `%v`: the output of
its `Format` method when it has one, otherwise the text of `Error()`.  When
`Error()` panics, `fmt` recovers the panic and prints `<nil>` for a nil pointer
and a `PANIC=` note for any other value. -/
def ErrorValue.verbV (e : ErrorValue) : String :=
  match e.Format with
  | some written => written
  | none =>
    match e.Error with
    | .ok text => text
    | .error p =>
      if e.nilPointer then "<nil>"
      else "%!v(PANIC=Error method: " ++ p.text ++ ")"

/-- The character-level worker of `strings.Split(s, sep)` for a one-character
separator: the pieces of `s` between consecutive separators, in order.  A text
without separator gives exactly one piece (the text itself, also when empty). -/
def splitOnChar (sep : Char) : List Char → List (List Char)
  | [] => [[]]
  | c :: cs =>
    if c = sep then [] :: splitOnChar sep cs
    else
      match splitOnChar sep cs with
      | [] => [[c]]
      | p :: ps => (c :: p) :: ps

/-- Go `strings.Split(s, ":")`. -/
def Split (s : String) (sep : Char) : List String :=
  (splitOnChar sep s.data).map String.mk

/-! ## utils.go -/

/-- Go `ExtractErrorDetails(err error) (*string, *string)`.
`err.Error()` on the nil interface value panics, and a panic of the method
itself leaves the function as well; otherwise the text is split on every colon,
and with at least two parts the first two are returned. -/
def ExtractErrorDetails (err : Option ErrorValue) :
    Except Panic (Option String × Option String) :=
  match err with
  | none => .error .nilDereference
  | some e =>
    match e.Error with
    | .error p => .error p
    | .ok text =>
      match Split text ':' with
      | p0 :: p1 :: _ => .ok (some p0, some p1)
      | _ => .ok (none, none)

/-- The decimal digit character of a value below ten. -/
def digitChar (d : Nat) : Char := Char.ofNat (48 + d)

/-- The digits of `n` in base ten, most significant first; `fuel` bounds the
number of digits produced. -/
def decimalDigits : Nat → Nat → List Char
  | 0, _ => []
  | fuel + 1, n =>
    if n < 10 then [digitChar n]
    else decimalDigits fuel (n / 10) ++ [digitChar (n % 10)]

/-- Go `%d` on an unsigned integer. -/
def formatDecimal (n : Nat) : List Char := decimalDigits (n + 1) n

/-- Go `%0<width>d` on an unsigned integer: the decimal rendering, padded on the
left with zeros up to `width` characters and never truncated. -/
def zeroPad (width n : Nat) : List Char :=
  List.replicate (width - (formatDecimal n).length) '0' ++ formatDecimal n

/-- A clock reading, broken down into its UTC calendar fields. -/
structure Time where
  year : Nat
  month : Nat
  day : Nat
  hour : Nat
  minute : Nat
  second : Nat
  nanosecond : Nat
  deriving DecidableEq, Repr

/-- Removal of the zeros at the end of a digit list. -/
def trimTrailingZeros (ds : List Char) : List Char :=
  (ds.reverse.dropWhile (fun c => c == '0')).reverse

/-- The layout element `.999999999` of `time.Format`: a point and the nine
nanosecond digits with trailing zeros removed, and nothing at all when the
fraction is zero. -/
def formatFraction (ns : Nat) : List Char :=
  match trimTrailingZeros (zeroPad 9 ns) with
  | [] => []
  | ds => '.' :: ds

/-- The seconds-resolution part `20060102T150405` of the layout. -/
def formatSeconds (t : Time) : List Char :=
  zeroPad 4 t.year ++ zeroPad 2 t.month ++ zeroPad 2 t.day ++ ['T']
    ++ zeroPad 2 t.hour ++ zeroPad 2 t.minute ++ zeroPad 2 t.second

/-- Go `t.UTC().Format("20060102T150405.999999999")`. -/
def formatTimestamp (t : Time) : String :=
  String.mk (formatSeconds t ++ formatFraction t.nanosecond)

/-- The modulus of the `uint64` request counter. -/
def counterModulus : Nat := 2 ^ 64

/-- Go `GenerateRequestID(prefix string) string`, with the clock reading `now`
and the shared counter passed explicitly; the new counter is returned with the
identifier.  The locked section `counter++; currentCounter := counter` is one
step on the counter. -/
def GenerateRequestID (pfx : String) (now : Time) (counter : Nat) : String × Nat :=
  let timestamp := formatTimestamp now
  let currentCounter := (counter + 1) % counterModulus
  (pfx ++ "-" ++ timestamp ++ "-" ++ String.mk (zeroPad 6 currentCounter), currentCounter)

/-- A sequence of `GenerateRequestID` calls in one process: each call comes with
its prefix and its clock reading, and takes the counter left by the call before
it.  The identifiers are returned in call order. -/
def generateAll : Nat → List (String × Time) → List String
  | _, [] => []
  | counter, (pfx, now) :: rest =>
    (GenerateRequestID pfx now counter).1
      :: generateAll (GenerateRequestID pfx now counter).2 rest

/-! ### Reading an identifier back -/

/-- Test for a decimal digit character. -/
def isDigit (c : Char) : Bool := decide ('0' ≤ c) && decide (c ≤ '9')

/-- The trailing run of decimal digits of an identifier: its counter suffix. -/
def counterSuffix (id : String) : List Char :=
  (id.data.reverse.takeWhile isDigit).reverse

/-- An identifier without its trailing run of decimal digits. -/
def dropCounter (id : String) : String :=
  String.mk (id.data.reverse.dropWhile isDigit).reverse

/-- Go `strconv.ParseUint(s, 10, 64)` on a digit string, without the range check. -/
def parseDecimal (ds : List Char) : Nat :=
  ds.foldl (fun acc c => acc * 10 + (c.toNat - 48)) 0

/-! ## logger.go: the data model -/

/-- Go `type Severity string` with its five constants. -/
inductive Severity where
  | SeverityDebug
  | SeverityInfo
  | SeverityWarning
  | SeverityError
  | SeverityCritical
  deriving DecidableEq, Repr

/-- The string value of a severity constant. -/
def Severity.text : Severity → String
  | .SeverityDebug => "DEBUG"
  | .SeverityInfo => "INFO"
  | .SeverityWarning => "WARNING"
  | .SeverityError => "ERROR"
  | .SeverityCritical => "CRITICAL"

/-- Go `type RequestMetadata struct`.  Pointer fields are options; the values of
`Extra`, which the logger never inspects, are kept in rendered form. -/
structure RequestMetadata where
  TraceID : String
  SpanID : String
  RequestID : String
  ServiceName : String
  Timestamp : Time
  UserAgent : String
  ClientIP : String
  Device : String
  Method : String
  Path : String
  ResponseTime : Int
  Deadline : Option Time
  StatusCode : Int
  ErrorCode : Option String
  ErrorType : Option String
  Extra : List (String × String)
  deriving DecidableEq, Repr

/-- The trace and span identifiers of a span, in their rendered (hexadecimal)
form. -/
structure SpanContext where
  TraceID : String
  SpanID : String
  deriving DecidableEq, Repr

/-- The span context of the no-op span that `trace.SpanFromContext` returns for
a context without span: both identifiers are zero. -/
def noopSpanContext : SpanContext :=
  ⟨"00000000000000000000000000000000", "0000000000000000"⟩

/-- The parts of a `context.Context` the logger reads: the active span, if any,
and the deadline, if any. -/
structure Context where
  span : Option SpanContext
  deadline : Option Time
  deriving DecidableEq, Repr

/-- Go `trace.SpanFromContext(ctx).SpanContext()`. -/
def Context.SpanContext (ctx : Context) : SpanContext :=
  ctx.span.getD noopSpanContext

/-- The method of the zap logger that receives the entry. -/
inductive SinkMethod where
  | Debug
  | Info
  | Warn
  | Error
  | Fatal
  deriving DecidableEq, Repr

/-- One emission to the zap logger: the severity and the method called, the
rendered message `msg` and the metadata value handed to `json.Marshal` (the
variable parts of the body), and the two structured fields. -/
structure Emission where
  severity : Severity
  method : SinkMethod
  msg : String
  metadata : RequestMetadata
  trace_id : String
  span_id : String
  deriving DecidableEq, Repr

/-- The body `fmt.Sprintf("%s: %s, metadata: %s", severity, msg, logData)` of an
emission, for a given rendering `marshal` of the metadata (`json.Marshal`). -/
def logEntry (marshal : RequestMetadata → String) (e : Emission) : String :=
  e.severity.text ++ ": " ++ e.msg ++ ", metadata: " ++ marshal e.metadata

/-- The outcome of one logger call: the entry emitted, the per-severity counter
after the call, and whether the process ends after the write (zap `Fatal`). -/
structure LogResult where
  entry : Emission
  logCounter : Severity → Nat
  exits : Bool

/-! ## logger.go: the operations -/

/-- Go `(l *Logger) log(severity, ctx, msg, err, metadata)`, with the clock
reading `now` and the per-severity counter `logCounter` passed explicitly.  The
message of a non-nil error is `fmt.Sprintf("%s: %v", msg, err)`. -/
def log (now : Time) (logCounter : Severity → Nat) (severity : Severity) (ctx : Context)
    (msg : String) (err : Option ErrorValue) (metadata : RequestMetadata) : LogResult :=
  let logCounter := fun l => if l = severity then logCounter l + 1 else logCounter l
  let metadata := { metadata with Timestamp := now }
  let spanContext := ctx.SpanContext
  let traceID := spanContext.TraceID
  let spanID := spanContext.SpanID
  let msg := match err with
    | some e => msg ++ ": " ++ e.verbV
    | none => msg
  let metadata := match ctx.deadline with
    | some deadline => { metadata with Deadline := some deadline }
    | none => { metadata with Deadline := none }
  let method := match severity with
    | .SeverityError => SinkMethod.Error
    | .SeverityWarning => SinkMethod.Warn
    | .SeverityDebug => SinkMethod.Debug
    | .SeverityCritical => SinkMethod.Fatal
    | _ => SinkMethod.Info
  { entry := ⟨severity, method, msg, metadata, traceID, spanID⟩
    logCounter := logCounter
    exits := decide (method = SinkMethod.Fatal) }

/-- Go `(l *Logger) Info(ctx, msg, metadata)`. -/
def Info (now : Time) (logCounter : Severity → Nat) (ctx : Context) (msg : String)
    (metadata : RequestMetadata) : Except Panic LogResult :=
  .ok (log now logCounter .SeverityInfo ctx msg none metadata)

/-- Go `(l *Logger) Error(ctx, err, metadata)`: the operation has no message
parameter and logs with the empty message. -/
def Error (now : Time) (logCounter : Severity → Nat) (ctx : Context) (err : Option ErrorValue)
    (metadata : RequestMetadata) : Except Panic LogResult :=
  match ExtractErrorDetails err with
  | .error p => .error p
  | .ok (errType, errCode) =>
    let metadata := { metadata with ErrorCode := errCode }
    let metadata := { metadata with ErrorType := errType }
    .ok (log now logCounter .SeverityError ctx "" err metadata)

/-- Go `(l *Logger) Warn(ctx, msg, metadata)`. -/
def Warn (now : Time) (logCounter : Severity → Nat) (ctx : Context) (msg : String)
    (metadata : RequestMetadata) : Except Panic LogResult :=
  .ok (log now logCounter .SeverityWarning ctx msg none metadata)

/-- Go `(l *Logger) Debug(ctx, msg, metadata)`. -/
def Debug (now : Time) (logCounter : Severity → Nat) (ctx : Context) (msg : String)
    (metadata : RequestMetadata) : Except Panic LogResult :=
  .ok (log now logCounter .SeverityDebug ctx msg none metadata)

/-- Go `(l *Logger) Fatal(ctx, err, metadata)`. -/
def Fatal (now : Time) (logCounter : Severity → Nat) (ctx : Context) (err : Option ErrorValue)
    (metadata : RequestMetadata) : Except Panic LogResult :=
  .ok (log now logCounter .SeverityCritical ctx "" err metadata)

/-! ## logger.go: the trace middleware -/

/-- The parts of an `http.Request` the middleware reads. -/
structure Request where
  Method : String
  URL : String
  RemoteAddr : String
  deriving DecidableEq, Repr

/-- How a call of the wrapped handler ends. -/
inductive Completion where
  | returned
  | panicked (v : String)
  deriving DecidableEq, Repr

/-- What one call of the wrapped handler does as far as the middleware can see:
the status codes it passes to `WriteHeader`, in order, and how it ends. -/
structure HandlerRun where
  writeHeaders : List Int
  completion : Completion
  deriving DecidableEq, Repr

/-- A wrapped handler: its behaviour may depend on the request and on the
`trace_id` and `span_id` values the middleware puts into the context. -/
abbrev Handler := Request → String → String → HandlerRun

/-- The observable actions of the middleware. -/
inductive Event where
  | spanStart (name : String)
  | missingIdentity
  | serveHTTP (trace_id span_id : String)
  | setAttributes (method url : String) (status_code : Int) (client_ip : String)
      (response_time : Int)
  | summary (traceID spanID : String) (duration : Int) (status : Int)
  | recovered (v : String)
  | spanEnd
  deriving DecidableEq, Repr

/-- Test for a `span.SetAttributes` action. -/
def Event.isSetAttributes : Event → Bool
  | .setAttributes _ _ _ _ _ => true
  | _ => false

/-- Test for the one-line summary printed after the handler. -/
def Event.isSummary : Event → Bool
  | .summary _ _ _ _ => true
  | _ => false

/-- The state of a running Go function: the actions performed so far and the
panic in flight, if any. -/
structure Frame where
  events : List Event
  panicking : Option String
  deriving DecidableEq, Repr

/-- Go `LoggingResponseWriter`: the status starts at `http.StatusOK` and every
`WriteHeader(code)` overwrites it. -/
def finalStatus (writeHeaders : List Int) : Int :=
  writeHeaders.foldl (fun _ code => code) 200

/-- The first deferred function: `if span != nil { span.End() }`; the span
returned by `tracer.Start` is never nil. -/
def deferredEnd (f : Frame) : Frame :=
  { f with events := f.events ++ [Event.spanEnd] }

/-- The second deferred function: `if r := recover(); r != nil { Printf(...) }`.
`recover` stops the panic in flight. -/
def deferredRecover (f : Frame) : Frame :=
  match f.panicking with
  | some v => { events := f.events ++ [Event.recovered v], panicking := none }
  | none => f

/-- The statements of the middleware closure up to its exit, without the
deferred calls: a panic of the handler leaves the body at the `ServeHTTP` call. -/
def middlewareBody (next : Handler) (r : Request) (span : SpanContext) (start finish : Int) : Frame :=
  let traceID := span.TraceID
  let spanID := span.SpanID
  let opening := [Event.spanStart "HTTP Request"]
    ++ (if traceID = "" ∨ spanID = "" then [Event.missingIdentity] else [])
    ++ [Event.serveHTTP traceID spanID]
  let run := next r traceID spanID
  let StatusCode := finalStatus run.writeHeaders
  match run.completion with
  | .panicked v => { events := opening, panicking := some v }
  | .returned =>
    let duration := finish - start
    { events := opening
        ++ [Event.setAttributes r.Method r.URL StatusCode r.RemoteAddr (Int.tdiv duration 1000000),
            Event.summary traceID spanID duration StatusCode]
      panicking := none }

/-- Go `TraceMiddleware(next)` serving one request: `span` is the context of the
span that `tracer.Start` returns, `start` and `finish` are the clock readings (in
nanoseconds) before and after the handler.  On exit the deferred calls run
last-in first-out: the recovery first, then the end of the span. -/
def TraceMiddleware (next : Handler) (r : Request) (span : SpanContext) (start finish : Int) : Frame :=
  deferredEnd (deferredRecover (middlewareBody next r span start finish))

/-! ## Vocabulary of the statements -/

/-- The entry a logger call emitted, if the call did not panic. -/
def emitted (r : Except Panic LogResult) : Option Emission :=
  match r with
  | .ok res => some res.entry
  | .error _ => none

/-- Two clock readings that fall within the same second. -/
def sameSecond (a b : Time) : Prop :=
  a.year = b.year ∧ a.month = b.month ∧ a.day = b.day ∧
    a.hour = b.hour ∧ a.minute = b.minute ∧ a.second = b.second

instance (a b : Time) : Decidable (sameSecond a b) := by
  unfold sameSecond
  infer_instance

/-- The zero value of Go `time.Time`. -/
def zeroTime : Time := ⟨1, 1, 1, 0, 0, 0, 0⟩

/-- The zero value `RequestMetadata{}`. -/
def zeroMetadata : RequestMetadata :=
  { TraceID := "", SpanID := "", RequestID := "", ServiceName := "", Timestamp := zeroTime,
    UserAgent := "", ClientIP := "", Device := "", Method := "", Path := "", ResponseTime := 0,
    Deadline := none, StatusCode := 0, ErrorCode := none, ErrorType := none, Extra := [] }

/-- A context without span and without deadline (`context.Background()`). -/
def background : Context := ⟨none, none⟩

/-- A fresh per-severity counter. -/
def zeroCounter : Severity → Nat := fun _ => 0

/-! ## Lemmas on splitting -/

theorem splitOnChar_spec (sep : Char) (l : List Char) :
    ∃ p ps, splitOnChar sep l = p :: ps ∧ sep ∉ p ∧
      ((ps = [] ∧ l = p) ∨ ∃ rest, l = p ++ sep :: rest ∧ ps = splitOnChar sep rest) := by
  induction l with
  | nil => exact ⟨[], [], rfl, by simp, Or.inl ⟨rfl, rfl⟩⟩
  | cons c cs ih =>
    obtain ⟨p, ps, hsplit, hp, hrest⟩ := ih
    by_cases hc : c = sep
    · refine ⟨[], splitOnChar sep cs, by simp [splitOnChar, hc], by simp, Or.inr ⟨cs, by simp [hc], rfl⟩⟩
    · refine ⟨c :: p, ps, by simp [splitOnChar, hc, hsplit], ?_, ?_⟩
      · simp only [List.mem_cons, not_or]
        exact ⟨fun h => hc h.symm, hp⟩
      · rcases hrest with ⟨h1, h2⟩ | ⟨rest, h1, h2⟩
        · exact Or.inl ⟨h1, by rw [h2]⟩
        · exact Or.inr ⟨rest, by rw [h1]; rfl, h2⟩

theorem splitOnChar_of_not_mem (sep : Char) (l : List Char) (h : sep ∉ l) :
    splitOnChar sep l = [l] := by
  obtain ⟨p, ps, hsplit, _, hrest⟩ := splitOnChar_spec sep l
  rcases hrest with ⟨h1, h2⟩ | ⟨rest, h1, _⟩
  · rw [hsplit, h1, h2]
  · exact absurd (by rw [h1]; simp) h

theorem splitOnChar_of_mem (sep : Char) (l : List Char) (h : sep ∈ l) :
    ∃ p q qs rest, splitOnChar sep l = p :: q :: qs ∧ sep ∉ p ∧ sep ∉ q ∧
      l = p ++ sep :: (q ++ rest) ∧ (rest = [] ∨ rest.head? = some sep) ∧
      (qs = [] ↔ rest = []) := by
  obtain ⟨p, ps, hsplit, hp, hrest⟩ := splitOnChar_spec sep l
  rcases hrest with ⟨_, h2⟩ | ⟨tail, h1, h2⟩
  · exact absurd (h2 ▸ h) hp
  · obtain ⟨q, qs, hsplit2, hq, hrest2⟩ := splitOnChar_spec sep tail
    rcases hrest2 with ⟨h3, h4⟩ | ⟨rest, h3, h4⟩
    · exact ⟨p, q, qs, [], by rw [hsplit, h2, hsplit2], hp, hq, by rw [h1, h4]; simp,
        Or.inl rfl, by simp [h3]⟩
    · refine ⟨p, q, qs, sep :: rest, by rw [hsplit, h2, hsplit2], hp, hq, by rw [h1, h3],
        Or.inr rfl, ?_⟩
      obtain ⟨r, rs, hsplit3, _, _⟩ := splitOnChar_spec sep rest
      simp [h4, hsplit3]

theorem ExtractErrorDetails_of_text (e : ErrorValue) (text : String) (h : e.Error = .ok text) :
    ExtractErrorDetails (some e)
      = match Split text ':' with
        | p0 :: p1 :: _ => .ok (some p0, some p1)
        | _ => .ok (none, none) := by
  simp only [ExtractErrorDetails, h]

theorem ExtractErrorDetails_some_ok (e : ErrorValue) (text : String) (h : e.Error = .ok text) :
    ∃ errType errCode, ExtractErrorDetails (some e) = .ok (errType, errCode) := by
  rw [ExtractErrorDetails_of_text e text h]
  split <;> exact ⟨_, _, rfl⟩

theorem ExtractErrorDetails_paired_of_text (e : ErrorValue) (text : String)
    (h : e.Error = .ok text) :
    ∃ errType errCode : Option String,
      ExtractErrorDetails (some e) = .ok (errType, errCode)
        ∧ errType.isSome = errCode.isSome
        ∧ ((errType = none ∧ errCode = none) ↔ ':' ∉ text.data)
        ∧ ((errType.isSome = true ∧ errCode.isSome = true) ↔ ':' ∈ text.data) := by
  rw [ExtractErrorDetails_of_text e text h]
  by_cases hc : ':' ∈ text.data
  · obtain ⟨p, q, qs, rest, hsplit, _⟩ := splitOnChar_of_mem ':' text.data hc
    exact ⟨some (String.mk p), some (String.mk q),
      by simp [Split, hsplit], rfl, by simp [hc], by simp [hc]⟩
  · exact ⟨none, none,
      by simp [Split, splitOnChar_of_not_mem ':' text.data hc], rfl,
      by simp [hc], by simp [hc]⟩

/-! ## Lemmas on decimal rendering -/

theorem isDigit_digitChar (d : Nat) (h : d < 10) : isDigit (digitChar d) = true := by
  interval_cases d <;> decide

theorem toNat_digitChar (d : Nat) (h : d < 10) : (digitChar d).toNat - 48 = d := by
  interval_cases d <;> decide

theorem isDigit_decimalDigits (fuel n : Nat) : ∀ c ∈ decimalDigits fuel n, isDigit c = true := by
  induction fuel generalizing n with
  | zero => simp [decimalDigits]
  | succ fuel ih =>
    intro c hc
    unfold decimalDigits at hc
    split at hc
    · rename_i hlt
      simp only [List.mem_singleton] at hc
      exact hc ▸ isDigit_digitChar n hlt
    · simp only [List.mem_append, List.mem_singleton] at hc
      rcases hc with hc | hc
      · exact ih _ c hc
      · exact hc ▸ isDigit_digitChar _ (Nat.mod_lt _ (by decide))

theorem parseDecimal_append_singleton (ds : List Char) (c : Char) :
    parseDecimal (ds ++ [c]) = parseDecimal ds * 10 + (c.toNat - 48) := by
  simp [parseDecimal, List.foldl_append]

theorem parseDecimal_decimalDigits (fuel n : Nat) (h : n < fuel) :
    parseDecimal (decimalDigits fuel n) = n := by
  induction fuel generalizing n with
  | zero => omega
  | succ fuel ih =>
    unfold decimalDigits
    split
    · rename_i hlt
      simp [parseDecimal, toNat_digitChar n hlt]
    · rw [parseDecimal_append_singleton, ih (n / 10) (by omega),
        toNat_digitChar _ (Nat.mod_lt _ (by decide))]
      omega

theorem parseDecimal_zeros (k : Nat) (ds : List Char) :
    parseDecimal (List.replicate k '0' ++ ds) = parseDecimal ds := by
  induction k with
  | zero => simp
  | succ k ih =>
    have h0 : ('0' : Char).toNat - 48 = 0 := by decide
    simp only [parseDecimal, List.replicate_succ, List.cons_append, List.foldl_cons] at ih ⊢
    simpa [h0] using ih

theorem parseDecimal_zeroPad (width n : Nat) : parseDecimal (zeroPad width n) = n := by
  unfold zeroPad formatDecimal
  rw [parseDecimal_zeros, parseDecimal_decimalDigits _ _ (Nat.lt_succ_self n)]

theorem isDigit_zeroPad (width n : Nat) : ∀ c ∈ zeroPad width n, isDigit c = true := by
  intro c hc
  unfold zeroPad formatDecimal at hc
  simp only [List.mem_append, List.mem_replicate] at hc
  rcases hc with ⟨_, hc⟩ | hc
  · rw [hc]; decide
  · exact isDigit_decimalDigits _ _ c hc

theorem length_zeroPad (width n : Nat) : width ≤ (zeroPad width n).length := by
  unfold zeroPad
  simp only [List.length_append, List.length_replicate]
  omega

/-! ## Lemmas on the shape of an identifier -/

theorem takeWhile_append_stop {α : Type} (p : α → Bool) (l : List α) (a : α) (r : List α)
    (hl : ∀ x ∈ l, p x = true) (ha : p a = false) :
    (l ++ a :: r).takeWhile p = l := by
  induction l with
  | nil => simp [List.takeWhile, ha]
  | cons x xs ih =>
    have hx : p x = true := hl x (List.mem_cons_self x xs)
    rw [List.cons_append, List.takeWhile_cons_of_pos hx,
      ih (fun y hy => hl y (List.mem_cons_of_mem x hy))]

theorem dropWhile_append_stop {α : Type} (p : α → Bool) (l : List α) (a : α) (r : List α)
    (hl : ∀ x ∈ l, p x = true) (ha : p a = false) :
    (l ++ a :: r).dropWhile p = a :: r := by
  induction l with
  | nil => simp [List.dropWhile, ha]
  | cons x xs ih =>
    have hx : p x = true := hl x (List.mem_cons_self x xs)
    rw [List.cons_append, List.dropWhile_cons_of_pos hx,
      ih (fun y hy => hl y (List.mem_cons_of_mem x hy))]

theorem counterSuffix_dash (stem : String) (ds : List Char) (h : ∀ c ∈ ds, isDigit c = true) :
    counterSuffix (stem ++ "-" ++ String.mk ds) = ds := by
  have hrev : (stem ++ "-" ++ String.mk ds).data.reverse = ds.reverse ++ '-' :: stem.data.reverse := by
    simp [String.data_append]
  unfold counterSuffix
  rw [hrev, takeWhile_append_stop isDigit _ _ _ (fun x hx => h x (List.mem_reverse.mp hx)) (by decide)]
  simp

theorem dropCounter_dash (stem : String) (ds : List Char) (h : ∀ c ∈ ds, isDigit c = true) :
    dropCounter (stem ++ "-" ++ String.mk ds) = stem ++ "-" := by
  have hrev : (stem ++ "-" ++ String.mk ds).data.reverse = ds.reverse ++ '-' :: stem.data.reverse := by
    simp [String.data_append]
  unfold dropCounter
  rw [hrev, dropWhile_append_stop isDigit _ _ _ (fun x hx => h x (List.mem_reverse.mp hx)) (by decide)]
  apply String.ext
  simp [String.data_append]

theorem counterSuffix_GenerateRequestID (pfx : String) (now : Time) (counter : Nat) :
    counterSuffix (GenerateRequestID pfx now counter).1 = zeroPad 6 ((counter + 1) % counterModulus) := by
  unfold GenerateRequestID
  exact counterSuffix_dash _ _ (isDigit_zeroPad _ _)

theorem dropCounter_GenerateRequestID (pfx : String) (now : Time) (counter : Nat) :
    dropCounter (GenerateRequestID pfx now counter).1 = pfx ++ "-" ++ formatTimestamp now ++ "-" := by
  unfold GenerateRequestID
  exact dropCounter_dash _ _ (isDigit_zeroPad _ _)

/-! ## Lemmas on sequences of calls -/

theorem GenerateRequestID_counter (pfx : String) (now : Time) (counter : Nat)
    (h : counter + 1 < counterModulus) :
    (GenerateRequestID pfx now counter).2 = counter + 1
      ∧ parseDecimal (counterSuffix (GenerateRequestID pfx now counter).1) = counter + 1 := by
  constructor
  · show (counter + 1) % counterModulus = counter + 1
    exact Nat.mod_eq_of_lt h
  · rw [counterSuffix_GenerateRequestID, parseDecimal_zeroPad, Nat.mod_eq_of_lt h]

theorem generateAll_counter_gt (calls : List (String × Time)) (counter : Nat)
    (h : counter + calls.length < counterModulus) :
    ∀ id ∈ generateAll counter calls, counter < parseDecimal (counterSuffix id) := by
  induction calls generalizing counter with
  | nil => simp [generateAll]
  | cons call rest ih =>
    obtain ⟨pfx, now⟩ := call
    simp only [List.length_cons] at h
    obtain ⟨hnext, hparse⟩ := GenerateRequestID_counter pfx now counter (by omega)
    intro id hid
    simp only [generateAll, List.mem_cons] at hid
    rcases hid with hid | hid
    · rw [hid, hparse]; omega
    · rw [hnext] at hid
      have := ih (counter + 1) (by omega) id hid
      omega

theorem generateAll_nodup (calls : List (String × Time)) (counter : Nat)
    (h : counter + calls.length < counterModulus) :
    (generateAll counter calls).Nodup := by
  induction calls generalizing counter with
  | nil => simp [generateAll]
  | cons call rest ih =>
    obtain ⟨pfx, now⟩ := call
    simp only [List.length_cons] at h
    obtain ⟨hnext, hparse⟩ := GenerateRequestID_counter pfx now counter (by omega)
    simp only [generateAll, List.nodup_cons]
    rw [hnext]
    refine ⟨fun hmem => ?_, ih (counter + 1) (by omega)⟩
    have := generateAll_counter_gt rest (counter + 1) (by omega) _ hmem
    omega

/-! ## The error classifier -/

/-- C1, as stated, fails: on a text with two colons the code returned is the
segment between the first and the second colon, not everything after the first
colon, and type, colon and code do not give the text back. -/
theorem ExtractErrorDetails_second_colon_cuts_code :
    ':' ∈ "ValidationError:missing_field:name".data
      ∧ ExtractErrorDetails (some (errorsNew "ValidationError:missing_field:name"))
          = .ok (some "ValidationError", some "missing_field")
      ∧ "ValidationError" ++ ":" ++ "missing_field" ≠ "ValidationError:missing_field:name" := by
  decide

/-- C1 (amended): for every error whose text (what `Error()` returns) has at
least one colon both values are present; errorType is the text before the first colon and errorCode is the text
after the first colon up to the next colon, or up to the end when there is no
further colon.  The text is errorType, a colon, errorCode and a remainder that
is empty or starts with a colon; with exactly one colon in the text the
remainder is empty. -/
theorem ExtractErrorDetails_first_two_segments (text : String) (format : Option String)
    (nilPointer : Bool) (h : ':' ∈ text.data) :
    ∃ errType errCode rest : String,
      ExtractErrorDetails (some ⟨.ok text, format, nilPointer⟩)
          = .ok (some errType, some errCode)
        ∧ ':' ∉ errType.data ∧ ':' ∉ errCode.data
        ∧ text = errType ++ ":" ++ errCode ++ rest
        ∧ (rest = "" ∨ rest.data.head? = some ':')
        ∧ (text.data.count ':' = 1 → errType ++ ":" ++ errCode = text) := by
  obtain ⟨p, q, qs, rest, hsplit, hp, hq, htext, hrest, _⟩ := splitOnChar_of_mem ':' text.data h
  refine ⟨String.mk p, String.mk q, String.mk rest, ?_, hp, hq, ?_, ?_, ?_⟩
  · rw [ExtractErrorDetails_of_text _ text rfl]
    simp [Split, hsplit]
  · apply String.ext
    simp [String.data_append, htext]
  · rcases hrest with hrest | hrest
    · exact Or.inl (by rw [hrest])
    · exact Or.inr hrest
  · intro hcount
    have hnil : rest = [] := by
      rcases hrest with hrest | hrest
      · exact hrest
      · cases rest with
        | nil => rfl
        | cons c cs =>
          simp only [List.head?_cons, Option.some.injEq] at hrest
          rw [htext, hrest] at hcount
          simp [List.count_append, List.count_cons] at hcount
          omega
    apply String.ext
    simp [String.data_append, htext, hnil]

/-- Witness of C1 (amended) at the text of the specification's example. -/
theorem ExtractErrorDetails_first_two_segments_witness :
    ':' ∈ "ValidationError:missing_field".data
      ∧ ∃ errType errCode rest : String,
        ExtractErrorDetails (some ⟨.ok "ValidationError:missing_field", none, false⟩)
            = .ok (some errType, some errCode)
          ∧ ':' ∉ errType.data ∧ ':' ∉ errCode.data
          ∧ "ValidationError:missing_field" = errType ++ ":" ++ errCode ++ rest
          ∧ (rest = "" ∨ rest.data.head? = some ':')
          ∧ ("ValidationError:missing_field".data.count ':' = 1
              → errType ++ ":" ++ errCode = "ValidationError:missing_field") :=
  ⟨by decide,
    ExtractErrorDetails_first_two_segments "ValidationError:missing_field" none false (by decide)⟩

/-- C6, on the code: ExtractErrorDetails fails on the nil error value, where
`err.Error()` panics, so it does not return for every error value.  It returns
exactly for the non-nil errors whose `Error()` returns a text, and there
errorType and errorCode are present or absent together, both absent exactly
when the text has no colon and both present exactly when it has one. -/
theorem ExtractErrorDetails_nil_fails (err : Option ErrorValue) :
    ExtractErrorDetails none = .error Panic.nilDereference
      ∧ (¬ ∃ r, ExtractErrorDetails none = .ok r)
      ∧ ((∃ r, ExtractErrorDetails err = .ok r) ↔ ∃ e text, err = some e ∧ e.Error = .ok text)
      ∧ (∀ e text, err = some e → e.Error = .ok text →
          ∃ errType errCode : Option String,
            ExtractErrorDetails err = .ok (errType, errCode)
              ∧ errType.isSome = errCode.isSome
              ∧ ((errType = none ∧ errCode = none) ↔ ':' ∉ text.data)
              ∧ ((errType.isSome = true ∧ errCode.isSome = true) ↔ ':' ∈ text.data)) := by
  refine ⟨rfl, ?_, ?_, ?_⟩
  · rintro ⟨r, hr⟩
    simp [ExtractErrorDetails] at hr
  · constructor
    · rintro ⟨r, hr⟩
      cases err with
      | none => simp [ExtractErrorDetails] at hr
      | some e =>
        cases he : e.Error with
        | error p => simp [ExtractErrorDetails, he] at hr
        | ok text => exact ⟨e, text, rfl, he⟩
    · rintro ⟨e, text, rfl, he⟩
      obtain ⟨errType, errCode, hextract⟩ := ExtractErrorDetails_some_ok e text he
      exact ⟨_, hextract⟩
  · rintro e text rfl he
    exact ExtractErrorDetails_paired_of_text e text he

/-! ## The request identifier generator -/

/-- C3: the identifiers returned by any sequence of fewer than 2^64
GenerateRequestID calls in one process (counter starting at 0, each call one
step on the counter, any prefixes, any clock readings) are pairwise distinct. -/
theorem GenerateRequestID_pairwise_distinct (calls : List (String × Time))
    (h : calls.length < counterModulus) :
    (generateAll 0 calls).Pairwise (fun a b => a ≠ b) :=
  generateAll_nodup calls 0 (by omega)

/-- Witness of C3: two calls with the same prefix that read the same timestamp. -/
theorem GenerateRequestID_pairwise_distinct_witness :
    [("req", zeroTime), ("req", zeroTime)].length < counterModulus
      ∧ (generateAll 0 [("req", zeroTime), ("req", zeroTime)]).Pairwise (fun a b => a ≠ b) :=
  ⟨by decide, GenerateRequestID_pairwise_distinct [("req", zeroTime), ("req", zeroTime)] (by decide)⟩

/-- C9, as stated, fails: two successive calls within the same second whose
readings differ in the fraction of the second give identifiers that differ in
the timestamp as well, not only in the counter suffix. -/
theorem GenerateRequestID_same_second_differs :
    sameSecond ⟨2024, 1, 15, 10, 30, 0, 100000000⟩ ⟨2024, 1, 15, 10, 30, 0, 200000000⟩
      ∧ GenerateRequestID "req" ⟨2024, 1, 15, 10, 30, 0, 100000000⟩ 0
          = ("req-20240115T103000.1-000001", 1)
      ∧ GenerateRequestID "req" ⟨2024, 1, 15, 10, 30, 0, 200000000⟩ 1
          = ("req-20240115T103000.2-000002", 2)
      ∧ dropCounter "req-20240115T103000.1-000001" = "req-20240115T103000.1-"
      ∧ dropCounter "req-20240115T103000.2-000002" = "req-20240115T103000.2-"
      ∧ dropCounter "req-20240115T103000.1-000001" ≠ dropCounter "req-20240115T103000.2-000002" := by
  decide

/-- C9 (amended): for every two successive GenerateRequestID calls with prefix
"req" whose clock readings fall within the same second (the counter not
wrapping), both identifiers have the form req-<timestamp>-<counter>, the two
timestamps start with the same seconds part, each counter suffix has at least 6
digits, and the suffixes parse back to integers with the second strictly
greater; when the two readings also agree in their nanosecond fraction the
identifiers are identical except for the counter suffix. -/
theorem GenerateRequestID_successive (t1 t2 : Time) (counter : Nat)
    (hsec : sameSecond t1 t2) (hc : counter + 2 < counterModulus) :
    (GenerateRequestID "req" t1 counter).1
        = "req-" ++ formatTimestamp t1 ++ "-"
            ++ String.mk (counterSuffix (GenerateRequestID "req" t1 counter).1)
      ∧ (GenerateRequestID "req" t2 (GenerateRequestID "req" t1 counter).2).1
        = "req-" ++ formatTimestamp t2 ++ "-"
            ++ String.mk (counterSuffix
                (GenerateRequestID "req" t2 (GenerateRequestID "req" t1 counter).2).1)
      ∧ (formatTimestamp t1).data = formatSeconds t1 ++ formatFraction t1.nanosecond
      ∧ (formatTimestamp t2).data = formatSeconds t1 ++ formatFraction t2.nanosecond
      ∧ 6 ≤ (counterSuffix (GenerateRequestID "req" t1 counter).1).length
      ∧ 6 ≤ (counterSuffix
            (GenerateRequestID "req" t2 (GenerateRequestID "req" t1 counter).2).1).length
      ∧ (∀ c ∈ counterSuffix (GenerateRequestID "req" t1 counter).1, isDigit c = true)
      ∧ (∀ c ∈ counterSuffix
            (GenerateRequestID "req" t2 (GenerateRequestID "req" t1 counter).2).1,
            isDigit c = true)
      ∧ parseDecimal (counterSuffix (GenerateRequestID "req" t1 counter).1)
          < parseDecimal (counterSuffix
              (GenerateRequestID "req" t2 (GenerateRequestID "req" t1 counter).2).1)
      ∧ (t1.nanosecond = t2.nanosecond →
          dropCounter (GenerateRequestID "req" t1 counter).1
            = dropCounter (GenerateRequestID "req" t2 (GenerateRequestID "req" t1 counter).2).1) := by
  obtain ⟨hnext1, hparse1⟩ := GenerateRequestID_counter "req" t1 counter (by omega)
  obtain ⟨_, hparse2⟩ := GenerateRequestID_counter "req" t2 (counter + 1) (by omega)
  have hseconds : formatSeconds t2 = formatSeconds t1 := by
    obtain ⟨h1, h2, h3, h4, h5, h6⟩ := hsec
    simp [formatSeconds, h1, h2, h3, h4, h5, h6]
  rw [hnext1]
  refine ⟨?_, ?_, rfl, ?_, ?_, ?_, ?_, ?_, ?_, ?_⟩
  · rw [counterSuffix_GenerateRequestID]
    apply String.ext
    simp [GenerateRequestID, String.data_append]
  · rw [counterSuffix_GenerateRequestID]
    apply String.ext
    simp [GenerateRequestID, String.data_append]
  · simp [formatTimestamp, hseconds]
  · rw [counterSuffix_GenerateRequestID]; exact length_zeroPad _ _
  · rw [counterSuffix_GenerateRequestID]; exact length_zeroPad _ _
  · rw [counterSuffix_GenerateRequestID]; exact isDigit_zeroPad _ _
  · rw [counterSuffix_GenerateRequestID]; exact isDigit_zeroPad _ _
  · rw [hparse1, hparse2]; omega
  · intro hns
    rw [dropCounter_GenerateRequestID, dropCounter_GenerateRequestID]
    simp [formatTimestamp, hseconds, hns]

/-- Witness of C9 (amended): two successive calls in the same second at
different fractions of it, from a fresh counter. -/
theorem GenerateRequestID_successive_witness :
    sameSecond ⟨2024, 1, 15, 10, 30, 0, 100000000⟩ ⟨2024, 1, 15, 10, 30, 0, 200000000⟩
      ∧ 0 + 2 < counterModulus
      ∧ parseDecimal (counterSuffix
            (GenerateRequestID "req" ⟨2024, 1, 15, 10, 30, 0, 100000000⟩ 0).1)
          < parseDecimal (counterSuffix
              (GenerateRequestID "req" ⟨2024, 1, 15, 10, 30, 0, 200000000⟩
                (GenerateRequestID "req" ⟨2024, 1, 15, 10, 30, 0, 100000000⟩ 0).2).1) :=
  ⟨by decide, by decide,
    (GenerateRequestID_successive ⟨2024, 1, 15, 10, 30, 0, 100000000⟩
      ⟨2024, 1, 15, 10, 30, 0, 200000000⟩ 0 (by decide) (by decide)).2.2.2.2.2.2.2.2.1⟩

/-! ## The logger -/

/-- C2, as stated, fails: the error operation has no message parameter, so with
error text "IOError:disk_full" the rendered message is ": IOError:disk_full",
whatever message the caller had in mind, and not
"failed to process: IOError:disk_full". -/
theorem Error_message_is_empty :
    (emitted (Error zeroTime zeroCounter background (some (errorsNew "IOError:disk_full"))
        zeroMetadata)).map (fun e => e.msg) = some ": IOError:disk_full"
      ∧ (emitted (Error zeroTime zeroCounter background (some (errorsNew "IOError:disk_full"))
        zeroMetadata)).map (fun e => e.msg)
          ≠ some ("failed to process" ++ ": " ++ "IOError:disk_full") := by
  decide

/-- C2 (amended): the error operation takes no message and logs with the empty
one: for every non-nil error e whose `Error()` returns a text, it emits one
ERROR entry through the Error method whose rendered message is ": " followed by
what `%v` prints for e (the text of e when e has no `Format` method, the output
of that method when it has one) and whose metadata has errorType and errorCode
equal to the Error Classifier's result on e; a plain error with text
"IOError:disk_full" gives the rendered message ": IOError:disk_full",
errorType = "IOError" and errorCode = "disk_full". -/
theorem Error_entry (now : Time) (logCounter : Severity → Nat) (ctx : Context)
    (metadata : RequestMetadata) (e : ErrorValue) (text : String) (h : e.Error = .ok text) :
    (∃ res, Error now logCounter ctx (some e) metadata = .ok res
        ∧ res.entry.severity = Severity.SeverityError
        ∧ res.entry.method = SinkMethod.Error
        ∧ res.entry.msg = ": " ++ e.verbV
        ∧ (e.Format = none → res.entry.msg = ": " ++ text)
        ∧ (∀ written, e.Format = some written → res.entry.msg = ": " ++ written)
        ∧ ExtractErrorDetails (some e)
            = .ok (res.entry.metadata.ErrorType, res.entry.metadata.ErrorCode))
      ∧ (emitted (Error now logCounter ctx (some (errorsNew "IOError:disk_full")) metadata)).map
          (fun e => (e.msg, e.metadata.ErrorType, e.metadata.ErrorCode))
          = some (": IOError:disk_full", some "IOError", some "disk_full") := by
  constructor
  · obtain ⟨errType, errCode, hextract⟩ := ExtractErrorDetails_some_ok e text h
    have hmsg : (log now logCounter .SeverityError ctx "" (some e)
        { metadata with ErrorCode := errCode, ErrorType := errType }).entry.msg
          = ": " ++ e.verbV := by
      show "" ++ ": " ++ e.verbV = ": " ++ e.verbV
      apply String.ext
      simp [String.data_append]
    refine ⟨log now logCounter .SeverityError ctx "" (some e)
      { metadata with ErrorCode := errCode, ErrorType := errType }, ?_, rfl, rfl, hmsg, ?_, ?_, ?_⟩
    · simp [Error, hextract]
    · intro hformat
      rw [hmsg]
      simp [ErrorValue.verbV, hformat, h]
    · intro written hformat
      rw [hmsg]
      simp [ErrorValue.verbV, hformat]
    · rw [hextract]
      cases hd : ctx.deadline <;> simp [log, hd]
  · have hextract : ExtractErrorDetails (some (errorsNew "IOError:disk_full"))
        = .ok (some "IOError", some "disk_full") := by decide
    have hverb : (errorsNew "IOError:disk_full").verbV = "IOError:disk_full" := by decide
    cases hd : ctx.deadline <;> simp [Error, hextract, emitted, log, hd, hverb]

/-- Witness of C2 (amended): an error with a `Format` method, whose `%v` output
differs from the text of `Error()`. -/
theorem Error_entry_witness :
    (ErrorValue.mk (.ok "IOError:disk_full") (some "disk is full (code 28)") false).Error
        = .ok "IOError:disk_full"
      ∧ ∃ res, Error zeroTime zeroCounter background
            (some ⟨.ok "IOError:disk_full", some "disk is full (code 28)", false⟩) zeroMetadata
            = .ok res
          ∧ res.entry.msg
            = ": " ++ (ErrorValue.mk (.ok "IOError:disk_full") (some "disk is full (code 28)")
                false).verbV
          ∧ ExtractErrorDetails
              (some ⟨.ok "IOError:disk_full", some "disk is full (code 28)", false⟩)
            = .ok (res.entry.metadata.ErrorType, res.entry.metadata.ErrorCode) :=
  ⟨rfl,
    let ⟨res, hres, _, _, hmsg, _, _, hextract⟩ :=
      (Error_entry zeroTime zeroCounter background zeroMetadata
        ⟨.ok "IOError:disk_full", some "disk is full (code 28)", false⟩ "IOError:disk_full" rfl).1
    ⟨res, hres, hmsg, hextract⟩⟩

/-- C5: for every log call at any severity and every caller-supplied metadata,
the emitted metadata's deadline is the deadline of the context: present and
equal to T when the context carries deadline T, absent when it carries none.
The same holds for each of the five operations. -/
theorem log_deadline_from_context (now : Time) (logCounter : Severity → Nat) (severity : Severity)
    (ctx : Context) (msg : String) (err : Option ErrorValue) (text : String)
    (format : Option String) (nilPointer : Bool) (metadata : RequestMetadata) :
    (log now logCounter severity ctx msg err metadata).entry.metadata.Deadline = ctx.deadline
      ∧ (emitted (Info now logCounter ctx msg metadata)).map (fun e => e.metadata.Deadline)
          = some ctx.deadline
      ∧ (emitted (Warn now logCounter ctx msg metadata)).map (fun e => e.metadata.Deadline)
          = some ctx.deadline
      ∧ (emitted (Debug now logCounter ctx msg metadata)).map (fun e => e.metadata.Deadline)
          = some ctx.deadline
      ∧ (emitted (Fatal now logCounter ctx err metadata)).map (fun e => e.metadata.Deadline)
          = some ctx.deadline
      ∧ (emitted (Error now logCounter ctx (some ⟨.ok text, format, nilPointer⟩) metadata)).map
          (fun e => e.metadata.Deadline) = some ctx.deadline := by
  have hlog : ∀ (s : Severity) (m : String) (e : Option ErrorValue) (md : RequestMetadata),
      (log now logCounter s ctx m e md).entry.metadata.Deadline = ctx.deadline := by
    intro s m e md
    cases hd : ctx.deadline <;> simp [log, hd]
  refine ⟨hlog _ _ _ _, ?_, ?_, ?_, ?_, ?_⟩
  · simp [Info, emitted, hlog]
  · simp [Warn, emitted, hlog]
  · simp [Debug, emitted, hlog]
  · simp [Fatal, emitted, hlog]
  · obtain ⟨errType, errCode, hextract⟩ :=
      ExtractErrorDetails_some_ok ⟨.ok text, format, nilPointer⟩ text rfl
    simp [Error, hextract, emitted, hlog]

/-- C7, as stated, fails: an info call whose caller-supplied metadata carries an
error code and type emits them unchanged. -/
theorem Info_keeps_supplied_error_fields :
    (emitted (Info zeroTime zeroCounter background "request processed"
        { zeroMetadata with ErrorCode := some "E42", ErrorType := some "Upstream" })).map
      (fun e => (e.metadata.ErrorCode, e.metadata.ErrorType))
      = some (some "E42", some "Upstream") := by
  decide

/-- C7 (amended): the logger populates errorCode and errorType only in the
error operation: every call to the debug, info, warn or critical operation
emits the metadata with errorCode and errorType exactly as the caller supplied
them, so both are absent when the caller supplied none. -/
theorem other_operations_keep_error_fields (now : Time) (logCounter : Severity → Nat)
    (ctx : Context) (msg : String) (err : Option ErrorValue) (metadata : RequestMetadata) :
    (emitted (Debug now logCounter ctx msg metadata)).map
        (fun e => (e.metadata.ErrorCode, e.metadata.ErrorType))
        = some (metadata.ErrorCode, metadata.ErrorType)
      ∧ (emitted (Info now logCounter ctx msg metadata)).map
        (fun e => (e.metadata.ErrorCode, e.metadata.ErrorType))
        = some (metadata.ErrorCode, metadata.ErrorType)
      ∧ (emitted (Warn now logCounter ctx msg metadata)).map
        (fun e => (e.metadata.ErrorCode, e.metadata.ErrorType))
        = some (metadata.ErrorCode, metadata.ErrorType)
      ∧ (emitted (Fatal now logCounter ctx err metadata)).map
        (fun e => (e.metadata.ErrorCode, e.metadata.ErrorType))
        = some (metadata.ErrorCode, metadata.ErrorType) := by
  have hlog : ∀ (s : Severity) (m : String) (e : Option ErrorValue),
      (log now logCounter s ctx m e metadata).entry.metadata.ErrorCode = metadata.ErrorCode
        ∧ (log now logCounter s ctx m e metadata).entry.metadata.ErrorType = metadata.ErrorType := by
    intro s m e
    cases hd : ctx.deadline <;> simp [log, hd]
  refine ⟨?_, ?_, ?_, ?_⟩
  · simp [Debug, emitted, hlog]
  · simp [Info, emitted, hlog]
  · simp [Warn, emitted, hlog]
  · simp [Fatal, emitted, hlog]

/-- C10, on the code: the error operation called with the nil error panics in
ExtractErrorDetails and emits nothing, for every context and metadata, while the
critical operation called with the nil error emits its entry. -/
theorem Error_nil_panics (now : Time) (logCounter : Severity → Nat) (ctx : Context)
    (metadata : RequestMetadata) :
    ExtractErrorDetails none = .error Panic.nilDereference
      ∧ emitted (Error now logCounter ctx none metadata) = none
      ∧ (emitted (Fatal now logCounter ctx none metadata)).map (fun e => (e.method, e.msg))
          = some (SinkMethod.Fatal, "") := by
  refine ⟨rfl, rfl, ?_⟩
  simp [Fatal, emitted, log]

/-! ## The trace middleware -/

/-- C4: for every request through TraceMiddleware exactly one span is started
and it is ended exactly once, as the last action, both when the wrapped handler
returns and when it panics; no panic leaves the middleware. -/
theorem TraceMiddleware_ends_span_once (next : Handler) (r : Request) (span : SpanContext)
    (start finish : Int) :
    (TraceMiddleware next r span start finish).events.count Event.spanEnd = 1
      ∧ (TraceMiddleware next r span start finish).events.count (Event.spanStart "HTTP Request") = 1
      ∧ (TraceMiddleware next r span start finish).events.getLast? = some Event.spanEnd
      ∧ (TraceMiddleware next r span start finish).panicking = none := by
  cases hrun : (next r span.TraceID span.SpanID).completion <;>
    by_cases hid : span.TraceID = "" ∨ span.SpanID = "" <;>
    simp [TraceMiddleware, middlewareBody, hrun, hid, deferredEnd, deferredRecover,
      List.count_cons, List.count_append]

/-- C8, as stated, fails: when the wrapped handler panics the middleware only
prints the recovery line and ends the span; no attribute is attached and the
one-line summary is not printed. -/
theorem TraceMiddleware_panic_skips_attributes :
    (TraceMiddleware (fun _ _ _ => ⟨[500], Completion.panicked "boom"⟩)
        ⟨"GET", "/", "10.0.0.1:4000"⟩ ⟨"4bf92f3577b34da6a3ce929d0e0e4736", "00f067aa0ba902b7"⟩
        0 1500000).events
      = [Event.spanStart "HTTP Request",
          Event.serveHTTP "4bf92f3577b34da6a3ce929d0e0e4736" "00f067aa0ba902b7",
          Event.recovered "boom", Event.spanEnd]
      ∧ (TraceMiddleware (fun _ _ _ => ⟨[500], Completion.panicked "boom"⟩)
        ⟨"GET", "/", "10.0.0.1:4000"⟩ ⟨"4bf92f3577b34da6a3ce929d0e0e4736", "00f067aa0ba902b7"⟩
        0 1500000).events.any (fun e => e.isSetAttributes || e.isSummary) = false := by
  decide

/-- C8 (amended): for every request through TraceMiddleware whose wrapped
handler returns normally, the middleware attaches the method, URL, status,
client IP and duration attributes to the span, then prints the one-line summary
with trace ID, span ID, duration and status, and then ends the span; when the
handler panics, the panic is intercepted, the recovery line is printed and the
span is ended, without attributes and without summary. -/
theorem TraceMiddleware_after_handler (next : Handler) (r : Request) (span : SpanContext)
    (start finish : Int) :
    ∃ opening : List Event,
      (∀ e ∈ opening, e.isSetAttributes = false ∧ e.isSummary = false ∧ e ≠ Event.spanEnd)
        ∧ match (next r span.TraceID span.SpanID).completion with
          | .returned =>
            (TraceMiddleware next r span start finish).events
              = opening ++
                [Event.setAttributes r.Method r.URL
                    (finalStatus (next r span.TraceID span.SpanID).writeHeaders) r.RemoteAddr
                    (Int.tdiv (finish - start) 1000000),
                  Event.summary span.TraceID span.SpanID (finish - start)
                    (finalStatus (next r span.TraceID span.SpanID).writeHeaders),
                  Event.spanEnd]
          | .panicked v =>
            (TraceMiddleware next r span start finish).events
              = opening ++ [Event.recovered v, Event.spanEnd] := by
  refine ⟨[Event.spanStart "HTTP Request"]
    ++ (if span.TraceID = "" ∨ span.SpanID = "" then [Event.missingIdentity] else [])
    ++ [Event.serveHTTP span.TraceID span.SpanID], ?_, ?_⟩
  · by_cases hid : span.TraceID = "" ∨ span.SpanID = "" <;>
      simp [hid, Event.isSetAttributes, Event.isSummary]
  · cases hrun : (next r span.TraceID span.SpanID).completion <;>
      simp [TraceMiddleware, middlewareBody, hrun, deferredEnd, deferredRecover]

/-! ## Checks of the embedding on the specification's examples -/

theorem ExtractErrorDetails_validation_example :
    ExtractErrorDetails (some (errorsNew "ValidationError:missing_field"))
      = .ok (some "ValidationError", some "missing_field") := by
  decide

theorem ExtractErrorDetails_boom_example :
    ExtractErrorDetails (some (errorsNew "boom")) = .ok (none, none) := by
  decide

theorem Error_formatter_example :
    (emitted (Error zeroTime zeroCounter background
        (some ⟨.ok "IOError:disk_full", some "disk is full (code 28)", false⟩) zeroMetadata)).map
      (fun e => (e.msg, e.metadata.ErrorType, e.metadata.ErrorCode))
      = some (": disk is full (code 28)", some "IOError", some "disk_full") := by
  decide

theorem Error_nil_pointer_example :
    Error zeroTime zeroCounter background (some ⟨.error .nilDereference, none, true⟩) zeroMetadata
        = .error Panic.nilDereference
      ∧ (emitted (Fatal zeroTime zeroCounter background
          (some ⟨.error .nilDereference, none, true⟩) zeroMetadata)).map (fun e => e.msg)
        = some ": <nil>" :=
  ⟨rfl, by decide⟩

theorem GenerateRequestID_microsecond_example :
    (GenerateRequestID "req" ⟨2024, 1, 15, 10, 30, 0, 123456000⟩ 0).1
      = "req-20240115T103000.123456-000001" := by
  decide

theorem GenerateRequestID_whole_second_example :
    (GenerateRequestID "req" ⟨2024, 1, 15, 10, 30, 0, 0⟩ 1234566).1
      = "req-20240115T103000-1234567" := by
  decide

theorem TraceMiddleware_returned_example :
    TraceMiddleware (fun _ _ _ => ⟨[404], Completion.returned⟩)
        ⟨"GET", "/", "10.0.0.1:4000"⟩ ⟨"4bf92f3577b34da6a3ce929d0e0e4736", "00f067aa0ba902b7"⟩
        0 1500000
      = ⟨[Event.spanStart "HTTP Request",
          Event.serveHTTP "4bf92f3577b34da6a3ce929d0e0e4736" "00f067aa0ba902b7",
          Event.setAttributes "GET" "/" 404 "10.0.0.1:4000" 1,
          Event.summary "4bf92f3577b34da6a3ce929d0e0e4736" "00f067aa0ba902b7" 1500000 404,
          Event.spanEnd], none⟩ := by
  decide

end Logger
